import Mathlib

/-!
Shallow embedding of the object/type core and the builtin modules shown in
`src/vm/src/exceptions.rs`, `src/vm/src/obj/objbytearray.rs` and
`src/vm/src/stdlib/re.rs` of this repository.

Conventions used throughout:
* Rust `panic!` (including out-of-bounds `Vec` indexing and `.unwrap()` on a
  missing payload) is modelled by returning `Option.none` from the embedded
  function; `some` is normal termination.
* The fallible native-function channel `PyResult` is modelled by
  `Except PyObj PyObj` (error = the raised exception instance).
* Mutation of a shared object (`set_attr`, buffer mutation) is modelled by
  returning the updated object alongside the result.
* Host-library values that are external to this repository (the `regex`
  crate's `Regex::new` and `Regex::find`) are passed as explicit function
  parameters.
-/

/-- A class node: a name plus a single base-class reference; `root` is the
class with no base (the root object class). Mirrors the spec §3 Class model
(name, single base, acyclic chain ending at a single root). -/
inductive PyClass where
  | root (name : String)
  | derived (name : String) (base : PyClass)
deriving DecidableEq, Repr

/-- Name of a class. -/
def PyClass.name : PyClass → String
  | .root n => n
  | .derived n _ => n

/-- Base class of a class, none only for the root object class. -/
def PyClass.base : PyClass → Option PyClass
  | .root _ => none
  | .derived _ b => some b

/-- Modelled from the spec: `create_type(name, type_type, base)` from the
missing `pyobject.rs` allocates a fresh class node with the given sole base
(spec §4.2 `create_class`); the metatype argument does not affect the
inheritance chain and is kept only for signature fidelity. -/
def create_type (name : String) (typ : PyClass) (base : PyClass) : PyClass :=
  let _ := typ
  PyClass.derived name base

/-- The root object class. -/
def objectType : PyClass := PyClass.root "object"

/-- The metaclass. -/
def typeType : PyClass := create_type "type" (PyClass.root "object") objectType

/-- Builtin list class. -/
def listType : PyClass := create_type "list" typeType objectType

/-- Builtin tuple class. -/
def tupleType : PyClass := create_type "tuple" typeType objectType

/-- Builtin str class. -/
def strType : PyClass := create_type "str" typeType objectType

/-- Builtin int class. -/
def intType : PyClass := create_type "int" typeType objectType

/-- Builtin bytearray class. -/
def bytearrayType : PyClass := create_type "bytearray" typeType objectType

/-- Builtin NoneType class. -/
def noneType : PyClass := create_type "NoneType" typeType objectType

/-- Modelled from the spec: `objtype::is_subclass` walks the base chain;
true iff the ancestor is encountered, including the class itself (spec §4.2). -/
def isSubclass (c a : PyClass) : Bool :=
  match c with
  | .root n => PyClass.root n == a
  | .derived n b => (PyClass.derived n b == a) || isSubclass b a

/-- The bootstrapped exception class hierarchy, mirroring the
`ExceptionZoo` struct of `exceptions.rs` (field names camel-cased). -/
structure ExceptionZoo where
  arithmeticError : PyClass
  assertionError : PyClass
  attributeError : PyClass
  baseExceptionType : PyClass
  exceptionType : PyClass
  fileNotFoundError : PyClass
  importError : PyClass
  indexError : PyClass
  keyError : PyClass
  moduleNotFoundError : PyClass
  nameError : PyClass
  notImplementedError : PyClass
  osError : PyClass
  overflowError : PyClass
  permissionError : PyClass
  runtimeError : PyClass
  stopIteration : PyClass
  syntaxError : PyClass
  typeError : PyClass
  valueError : PyClass
  zeroDivisionError : PyClass
deriving DecidableEq, Repr

/-- Direct translation of `ExceptionZoo::new` from `exceptions.rs`:
each class is created with `create_type` with the base shown in the source,
sorted by hierarchy then alphabetized. -/
def ExceptionZoo.new (type_type : PyClass) (object_type : PyClass) : ExceptionZoo :=
  let baseExceptionType := create_type "BaseException" type_type object_type
  let exceptionType := create_type "Exception" type_type baseExceptionType
  let arithmeticError := create_type "ArithmeticError" type_type exceptionType
  let assertionError := create_type "AssertionError" type_type exceptionType
  let attributeError := create_type "AttributeError" type_type exceptionType
  let importError := create_type "ImportError" type_type exceptionType
  let indexError := create_type "IndexError" type_type exceptionType
  let keyError := create_type "KeyError" type_type exceptionType
  let nameError := create_type "NameError" type_type exceptionType
  let osError := create_type "OSError" type_type exceptionType
  let runtimeError := create_type "RuntimeError" type_type exceptionType
  let stopIteration := create_type "StopIteration" type_type exceptionType
  let syntaxError := create_type "SyntaxError" type_type exceptionType
  let typeError := create_type "TypeError" type_type exceptionType
  let valueError := create_type "ValueError" type_type exceptionType
  let overflowError := create_type "OverflowError" type_type arithmeticError
  let zeroDivisionError := create_type "ZeroDivisionError" type_type arithmeticError
  let moduleNotFoundError := create_type "ModuleNotFoundError" type_type importError
  let notImplementedError := create_type "NotImplementedError" type_type runtimeError
  let fileNotFoundError := create_type "FileNotFoundError" type_type osError
  let permissionError := create_type "PermissionError" type_type osError
  { arithmeticError := arithmeticError
    assertionError := assertionError
    attributeError := attributeError
    baseExceptionType := baseExceptionType
    exceptionType := exceptionType
    fileNotFoundError := fileNotFoundError
    importError := importError
    indexError := indexError
    keyError := keyError
    moduleNotFoundError := moduleNotFoundError
    nameError := nameError
    notImplementedError := notImplementedError
    osError := osError
    overflowError := overflowError
    permissionError := permissionError
    runtimeError := runtimeError
    stopIteration := stopIteration
    syntaxError := syntaxError
    typeError := typeError
    valueError := valueError
    zeroDivisionError := zeroDivisionError }

/-- The process-wide exception zoo, bootstrapped once as in
`PyContext::new` (spec §3: classes created during runtime initialization). -/
def exceptionsZoo : ExceptionZoo := ExceptionZoo.new typeType objectType

/-- C8: the bootstrapped exception class hierarchy is exactly the
single-inheritance tree of the source: BaseException (rooted at the object
class) → Exception → thirteen direct children, with OverflowError and
ZeroDivisionError under ArithmeticError, ModuleNotFoundError under
ImportError, NotImplementedError under RuntimeError, and FileNotFoundError
and PermissionError under OSError. -/
theorem exception_hierarchy_tree :
    exceptionsZoo.baseExceptionType.name = "BaseException" ∧
    exceptionsZoo.baseExceptionType.base = some objectType ∧
    exceptionsZoo.exceptionType.name = "Exception" ∧
    exceptionsZoo.exceptionType.base = some exceptionsZoo.baseExceptionType ∧
    exceptionsZoo.arithmeticError.name = "ArithmeticError" ∧
    exceptionsZoo.arithmeticError.base = some exceptionsZoo.exceptionType ∧
    exceptionsZoo.assertionError.name = "AssertionError" ∧
    exceptionsZoo.assertionError.base = some exceptionsZoo.exceptionType ∧
    exceptionsZoo.attributeError.name = "AttributeError" ∧
    exceptionsZoo.attributeError.base = some exceptionsZoo.exceptionType ∧
    exceptionsZoo.importError.name = "ImportError" ∧
    exceptionsZoo.importError.base = some exceptionsZoo.exceptionType ∧
    exceptionsZoo.indexError.name = "IndexError" ∧
    exceptionsZoo.indexError.base = some exceptionsZoo.exceptionType ∧
    exceptionsZoo.keyError.name = "KeyError" ∧
    exceptionsZoo.keyError.base = some exceptionsZoo.exceptionType ∧
    exceptionsZoo.nameError.name = "NameError" ∧
    exceptionsZoo.nameError.base = some exceptionsZoo.exceptionType ∧
    exceptionsZoo.osError.name = "OSError" ∧
    exceptionsZoo.osError.base = some exceptionsZoo.exceptionType ∧
    exceptionsZoo.runtimeError.name = "RuntimeError" ∧
    exceptionsZoo.runtimeError.base = some exceptionsZoo.exceptionType ∧
    exceptionsZoo.stopIteration.name = "StopIteration" ∧
    exceptionsZoo.stopIteration.base = some exceptionsZoo.exceptionType ∧
    exceptionsZoo.syntaxError.name = "SyntaxError" ∧
    exceptionsZoo.syntaxError.base = some exceptionsZoo.exceptionType ∧
    exceptionsZoo.typeError.name = "TypeError" ∧
    exceptionsZoo.typeError.base = some exceptionsZoo.exceptionType ∧
    exceptionsZoo.valueError.name = "ValueError" ∧
    exceptionsZoo.valueError.base = some exceptionsZoo.exceptionType ∧
    exceptionsZoo.overflowError.name = "OverflowError" ∧
    exceptionsZoo.overflowError.base = some exceptionsZoo.arithmeticError ∧
    exceptionsZoo.zeroDivisionError.name = "ZeroDivisionError" ∧
    exceptionsZoo.zeroDivisionError.base = some exceptionsZoo.arithmeticError ∧
    exceptionsZoo.moduleNotFoundError.name = "ModuleNotFoundError" ∧
    exceptionsZoo.moduleNotFoundError.base = some exceptionsZoo.importError ∧
    exceptionsZoo.notImplementedError.name = "NotImplementedError" ∧
    exceptionsZoo.notImplementedError.base = some exceptionsZoo.runtimeError ∧
    exceptionsZoo.fileNotFoundError.name = "FileNotFoundError" ∧
    exceptionsZoo.fileNotFoundError.base = some exceptionsZoo.osError ∧
    exceptionsZoo.permissionError.name = "PermissionError" ∧
    exceptionsZoo.permissionError.base = some exceptionsZoo.osError := by
  decide

/-- The host `regex::Match` value (external crate): the byte range of a
found match. Only its identity matters to this core; the fields mirror the
range the crate stores. -/
structure RMatch where
  start : Nat
  stop : Nat
deriving DecidableEq, Repr

/-- The host `regex::Regex` value (external crate): a compiled pattern.
The crate's search behavior is passed separately as an explicit function
wherever the source calls `regex.find`. -/
structure RRegex where
  pattern : String
deriving DecidableEq, Repr

/-- The closed universe of host values this repository stores type-erased
via `PyObjectPayload::AnyRustValue` (a `Box<dyn Any>` in the source): the
compiled `Regex` (wrapped by `re_compile`) and the `Match` (wrapped by
`create_match`). The constructor tags model the `Any` type identity. -/
inductive RustValue where
  | regex (r : RRegex)
  | rmatch (m : RMatch)
deriving DecidableEq, Repr

/-- Models `value.downcast_ref::<Regex>()`: yields the stored value only
when the stored type identity is exactly `Regex`. -/
def downcast_regex : RustValue → Option RRegex
  | .regex r => some r
  | _ => none

/-- Models `value.downcast_ref::<Match>()`: yields the stored value only
when the stored type identity is exactly `Match`. -/
def downcast_match : RustValue → Option RMatch
  | .rmatch m => some m
  | _ => none

/-- The `Match` class created by `py_class!` in `mk_module` of `re.rs`,
based on the object class. -/
def matchType : PyClass := create_type "Match" typeType objectType

/-- The `Pattern` class created by `py_class!` in `mk_module` of `re.rs`,
based on the object class. -/
def patternType : PyClass := create_type "Pattern" typeType objectType

/-- A dynamic value: the Object Cell of the spec (class reference plus
payload). Structured payloads (str, int, list, tuple, bytearray) are the
builtin shapes the four source files use; `inst` is an instance with a
per-instance attribute mapping; `anyRustValue` is the type-erased opaque
payload of `re.rs`. Bytes are modelled as `Nat` (the source's `u8`; no
arithmetic overflows a byte here). -/
inductive PyObj where
  | pyNone
  | int (i : Int)
  | str (s : String)
  | list (elems : List PyObj)
  | tuple (elems : List PyObj)
  | bytearray (value : List Nat)
  | inst (cls : PyClass) (attrs : List (String × PyObj))
  | anyRustValue (value : RustValue) (cls : PyClass)

/-- Models `PyObject::new(payload, class)` as used by `re.rs` for the
opaque-payload wrap. -/
def PyObject.new (value : RustValue) (cls : PyClass) : PyObj :=
  PyObj.anyRustValue value cls

/-- Class of an object (`TypeProtocol::class`): established at
construction, immutable thereafter (spec §3). -/
def classOf : PyObj → PyClass
  | .pyNone => noneType
  | .int _ => intType
  | .str _ => strType
  | .list _ => listType
  | .tuple _ => tupleType
  | .bytearray _ => bytearrayType
  | .inst cls _ => cls
  | .anyRustValue _ cls => cls

/-- Modelled from the spec: `objtype::isinstance(obj, cls)` holds iff `cls`
appears in the chain from the object's class to the root (spec §3). -/
def isinstance (obj : PyObj) (cls : PyClass) : Bool :=
  isSubclass (classOf obj) cls

/-- First-hit lookup in an instance attribute mapping. -/
def lookupAttr : List (String × PyObj) → String → Option PyObj
  | [], _ => none
  | (k, v) :: rest, name => if k == name then some v else lookupAttr rest name

/-- Modelled from the spec: `vm.get_attribute(obj, name)` for the instance
attributes the claims touch (per-instance mapping, spec §3); absence is the
error the caller observes as `Err`. -/
def getAttribute : PyObj → String → Option PyObj
  | .inst _ attrs, name => lookupAttr attrs name
  | _, _ => none

/-- Insert-or-overwrite in an attribute mapping, last write wins. -/
def setAttrList : List (String × PyObj) → String → PyObj → List (String × PyObj)
  | [], name, v => [(name, v)]
  | (k, w) :: rest, name, v =>
    if k == name then (k, v) :: rest else (k, w) :: setAttrList rest name v

/-- Modelled from the spec: `vm.ctx.set_attr(obj, name, value)`; mutation of
the shared object is modelled by returning the updated object. Objects
without an instance attribute mapping are unchanged. -/
def setAttr : PyObj → String → PyObj → PyObj
  | .inst cls attrs, name, v => .inst cls (setAttrList attrs name v)
  | o, _, _ => o

/-- Modelled from the spec: `vm.new_exception`-style construction used by
`new_type_error` / `new_value_error` / `new_index_error`: an instance of the
given exception class carrying the message. -/
def vmNewError (cls : PyClass) (msg : String) : PyObj :=
  PyObj.inst cls [("msg", PyObj.str msg)]

/-- Models `vm.new_type_error(msg)`. -/
def new_type_error (msg : String) : PyObj := vmNewError exceptionsZoo.typeError msg

/-- Models `vm.new_value_error(msg)`. -/
def new_value_error (msg : String) : PyObj := vmNewError exceptionsZoo.valueError msg

/-- Models `vm.new_index_error(msg)`. -/
def new_index_error (msg : String) : PyObj := vmNewError exceptionsZoo.indexError msg

/-- Constraint check of the binder, one parameter at a time. -/
def checkParams : List (Option PyClass) → List PyObj → Except PyObj Unit
  | [], _ => .ok ()
  | _ :: _, [] => .ok ()
  | c :: ps, a :: rest =>
    match c with
    | some cls =>
      if isinstance a cls then checkParams ps rest
      else .error (new_type_error ("Expected type " ++ cls.name))
    | none => checkParams ps rest

/-- Modelled from the spec: the `arg_check!` argument binder (spec §4.4).
It validates that the argument count is at least the number of required
parameters and that each class-constrained parameter satisfies the
`is_subclass` check on its argument's class, failing with a type error
naming the expected class. -/
def bindRequired (params : List (Option PyClass)) (args : List PyObj) : Except PyObj Unit :=
  if args.length < params.length then
    .error (new_type_error "Expected more arguments")
  else checkParams params args

/-- A value found by attribute lookup is structurally smaller than the
attribute mapping containing it. -/
theorem lookupAttr_sizeOf_lt {attrs : List (String × PyObj)} {name : String}
    {m : PyObj} (h : lookupAttr attrs name = some m) : sizeOf m < sizeOf attrs := by
  induction attrs with
  | nil => simp [lookupAttr] at h
  | cons kv rest ih =>
    obtain ⟨k, v⟩ := kv
    rw [lookupAttr] at h
    split at h
    · injection h with h
      subst h
      simp only [List.cons.sizeOf_spec, Prod.mk.sizeOf_spec]
      omega
    · have := ih h
      simp only [List.cons.sizeOf_spec]
      omega

/-- Modelled from the spec: `vm.to_str(obj)` dispatches to the object's
`__str__` through the class chain (spec §4.2, §4.5). Strings, ints and None
render directly; for an instance whose class descends from the Exception
class the registered `__str__` is `exception_str` of `exceptions.rs`, whose
body is inlined here (its declared constraint is satisfied exactly when the
dispatch finds it); a class chain without a modelled `__str__` yields the
attribute error of spec §4.2. `none` models a host panic: the source panics
when a constructed exception lacks `msg`. -/
def to_str : PyObj → Option (Except PyObj String)
  | .str s => some (.ok s)
  | .int i => some (.ok (toString i))
  | .pyNone => some (.ok "None")
  | .list _ => some (.error (vmNewError exceptionsZoo.attributeError "__str__ not found"))
  | .tuple _ => some (.error (vmNewError exceptionsZoo.attributeError "__str__ not found"))
  | .bytearray _ => some (.error (vmNewError exceptionsZoo.attributeError "__str__ not found"))
  | .anyRustValue _ _ => some (.error (vmNewError exceptionsZoo.attributeError "__str__ not found"))
  | .inst cls attrs =>
    if isSubclass cls exceptionsZoo.exceptionType then
      -- body of exception_str: read msg (panic when absent), render the class name and message
      match h : lookupAttr attrs "msg" with
      | some m =>
        match to_str m with
        | some (.ok msg) => some (.ok (cls.name ++ ": " ++ msg))
        | some (.error _) => some (.ok (cls.name ++ ": " ++ "<exception str() failed>"))
        | none => none
      | none => none
    else some (.error (vmNewError exceptionsZoo.attributeError "__str__ not found"))
termination_by o => sizeOf o
decreasing_by
  have h1 := lookupAttr_sizeOf_lt h
  simp only [PyObj.inst.sizeOf_spec]
  omega

/-- Translation of `exception_init` from `exceptions.rs`: `msg` comes from
the first extra argument or the string "No msg"; `__traceback__` is always
set to a fresh empty list; the result is None. Indexing `args.args[0]` on an
empty argument list panics (`none`). The updated receiver is returned in
place of the source's in-place mutation. -/
def exception_init (args : List PyObj) : Option (PyObj × PyObj) :=
  match args with
  | [] => none
  | zelf :: rest =>
    let msg := match rest with
      | m :: _ => m
      | [] => PyObj.str "No msg"
    let zelf := setAttr zelf "msg" msg
    let zelf := setAttr zelf "__traceback__" (PyObj.list [])
    some (zelf, PyObj.pyNone)

/-- Translation of `exception_str` from `exceptions.rs`: the binder declares
one required parameter constrained to the `Exception` class of the zoo; the
body reads `msg` (panicking when absent), converts it with the str protocol
(a failed conversion renders as "<exception str() failed>") and returns
"<ClassName>: <msg>". -/
def exception_str (args : List PyObj) : Option (Except PyObj PyObj) :=
  match bindRequired [some exceptionsZoo.exceptionType] args with
  | .error e => some (.error e)
  | .ok _ =>
    match args with
    | exc :: _ =>
      match getAttribute exc "msg" with
      | some m =>
        match to_str m with
        | some (.ok msg) =>
          some (.ok (PyObj.str ((classOf exc).name ++ ": " ++ msg)))
        | some (.error _) =>
          some (.ok (PyObj.str ((classOf exc).name ++ ": " ++ "<exception str() failed>")))
        | none => none
      | none => none
    | [] => none

/-- Modelled from the spec: a condensation of the host Debug formatting the
printer uses for its secondary-failure diagnostic (the missing core derives
Debug for object references); it names the class of the value. -/
def debugFmt : PyObj → String
  | .pyNone => "None"
  | .int i => toString i
  | .str s => s
  | .list _ => "<list>"
  | .tuple _ => "<tuple>"
  | .bytearray _ => "<bytearray>"
  | .inst cls _ => "<" ++ cls.name ++ " instance>"
  | .anyRustValue _ cls => "<" ++ cls.name ++ " object>"

/-- One component of a traceback entry as the printer renders it: the str
conversion's value on success, the literal placeholder on failure; a panic
inside the conversion propagates. -/
def fmt_component (e : PyObj) : Option String :=
  match to_str e with
  | some (.ok x) => some x
  | some (.error _) => some "<error>"
  | none => none

/-- The per-element body of the printer's loop in `print_exception`
(`exceptions.rs`): a tuple element has its components at positions 0, 1 and
2 read with no length check — the source indexes `element[0]`, `element[1]`,
`element[2]` directly, so a tuple with fewer than three components panics
(`none`); a non-tuple element prints the placeholder line. -/
def print_tb_element (element : PyObj) : Option String :=
  if isinstance element tupleType then
    match element with
    | .tuple elems =>
      match elems with
      | e0 :: e1 :: e2 :: _ =>
        match fmt_component e0, fmt_component e1, fmt_component e2 with
        | some filename, some lineno, some objName =>
          some ("  File " ++ filename ++ ", line " ++ lineno ++ ", in " ++ objName)
        | _, _, _ => none
      | _ => none
    | _ => none
  else some "  File ??"

/-- The printer's loop over the (already reversed) traceback elements; a
panic on any element aborts the whole printer. -/
def printElements : List PyObj → Option (List String)
  | [] => some []
  | e :: rest =>
    match print_tb_element e, printElements rest with
    | some line, some lines => some (line :: lines)
    | _, _ => none

/-- The traceback half of `print_exception` (`exceptions.rs`): when
`__traceback__` is readable the header is printed and, when the traceback
is a list, its elements are printed in reversed order; when the attribute
is absent a placeholder line is printed instead. -/
def traceback_lines (exc : PyObj) : Option (List String) :=
  match getAttribute exc "__traceback__" with
  | some tb =>
    if isinstance tb listType then
      match tb with
      | PyObj.list elements =>
        (match printElements elements.reverse with
         | some ls => some ("Traceback (most recent call last):" :: ls)
         | none => none)
      | _ => some ["Traceback (most recent call last):"]
    else some ["Traceback (most recent call last):"]
  | none => some ["No traceback set on exception"]

/-- Translation of `print_exception` from `exceptions.rs`. Output is the
list of printed lines; `none` models a panic (which discards any partially
printed output in this model). After the traceback half, the exception's
str form is printed, or a diagnostic line naming the failure when the
conversion fails. -/
def print_exception (exc : PyObj) : Option (List String) :=
  match traceback_lines exc with
  | none => none
  | some lines =>
    match to_str exc with
    | some (Except.ok txt) => some (lines ++ [txt])
    | some (Except.error err) => some (lines ++ ["Error during error " ++ debugFmt err])
    | none => none

/-- A traceback element the printer can render without panicking: an
element the tuple-instance check accepts must be a tuple value with at
least three components whose first three components str-convert without a
panic; an element that check rejects always renders as the placeholder. -/
def tb_element_safe (e : PyObj) : Bool :=
  if isinstance e tupleType then
    match e with
    | .tuple (e0 :: e1 :: e2 :: _) =>
      (to_str e0).isSome && (to_str e1).isSome && (to_str e2).isSome
    | _ => false
  else true

/-- An exception object whose traceback (when present and a list) consists
only of safely renderable elements. -/
def tb_safe (exc : PyObj) : Bool :=
  match getAttribute exc "__traceback__" with
  | some (PyObj.list es) => es.all tb_element_safe
  | _ => true

/-- The line the printer emits last, as a function of the exception's str
conversion result. -/
def renderResult : Except PyObj String → String
  | .ok txt => txt
  | .error err => "Error during error " ++ debugFmt err

/-- Models `Vec::pop` on the byte buffer: removes and returns the last
element when the buffer is nonempty. -/
def vec_pop (l : List Nat) : Option (Nat × List Nat) :=
  match l.getLast? with
  | some x => some (x, l.dropLast)
  | none => none

/-- Translation of `bytearray_pop` from `objbytearray.rs`: one required
parameter constrained to the bytearray class; popping an empty buffer
returns an index error with the source's message, otherwise the popped byte
is returned as an int. The (possibly mutated) argument list is returned
alongside the result; `none` models the payload-unwrap panic of
`get_mut_value`, unreachable once the binder accepted the argument. -/
def bytearray_pop (args : List PyObj) : Option ((Except PyObj PyObj) × List PyObj) :=
  match bindRequired [some bytearrayType] args with
  | .error e => some (.error e, args)
  | .ok _ =>
    match args with
    | PyObj.bytearray value :: rest =>
      match vec_pop value with
      | some (i, value2) => some (.ok (PyObj.int i), PyObj.bytearray value2 :: rest)
      | none => some (.error (new_index_error "pop from empty bytearray"), PyObj.bytearray value :: rest)
    | _ => none

/-- Models `objstr::get_value`: reads the string payload; the binder has
already guaranteed a str argument wherever the source calls it. -/
def objstr_get_value : PyObj → String
  | .str s => s
  | _ => ""

/-- Translation of `make_regex` from `re.rs`, parameterized by the external
crate's `Regex::new` (`rnew`): a compile failure becomes a value error
prefixed with the source's text. -/
def make_regex (rnew : String → Except String RRegex) (pattern : PyObj) : Except PyObj RRegex :=
  match rnew (objstr_get_value pattern) with
  | .ok regex => .ok regex
  | .error err => .error (new_value_error ("Error in regex: " ++ err))

/-- Translation of `create_match` from `re.rs`: wraps the found host match
as an opaque payload of the `Match` class (the source retrieves that class
by re-importing the module; the model uses the class it created). -/
def create_match (match_value : RMatch) : Except PyObj PyObj :=
  .ok (PyObject.new (RustValue.rmatch match_value) matchType)

/-- Translation of `do_search` from `re.rs`, parameterized by the external
crate's `Regex::find` (`rfind`): no find is None, a find becomes a Match
object. -/
def do_search (rfind : RRegex → String → Option RMatch) (regex : RRegex)
    (search_text : String) : Except PyObj PyObj :=
  match rfind regex search_text with
  | none => .ok PyObj.pyNone
  | some result => create_match result

/-- Translation of `do_match` from `re.rs`: the body delegates to
`do_search` unchanged (the source marks real matching as unimplemented). -/
def do_match (rfind : RRegex → String → Option RMatch) (regex : RRegex)
    (search_text : String) : Except PyObj PyObj :=
  do_search rfind regex search_text

/-- Translation of `re_match` from `re.rs`: two required str parameters,
compile the pattern, then `do_match`. -/
def re_match (rnew : String → Except String RRegex)
    (rfind : RRegex → String → Option RMatch) (args : List PyObj) :
    Option (Except PyObj PyObj) :=
  match bindRequired [some strType, some strType] args with
  | .error e => some (.error e)
  | .ok _ =>
    match args with
    | pattern :: string :: _ =>
      match make_regex rnew pattern with
      | .error e => some (.error e)
      | .ok regex => some (do_match rfind regex (objstr_get_value string))
    | _ => none

/-- Translation of `re_search` from `re.rs`: two required str parameters,
compile the pattern, then `do_search`. -/
def re_search (rnew : String → Except String RRegex)
    (rfind : RRegex → String → Option RMatch) (args : List PyObj) :
    Option (Except PyObj PyObj) :=
  match bindRequired [some strType, some strType] args with
  | .error e => some (.error e)
  | .ok _ =>
    match args with
    | pattern :: string :: _ =>
      match make_regex rnew pattern with
      | .error e => some (.error e)
      | .ok regex => some (do_search rfind regex (objstr_get_value string))
    | _ => none

/-- Translation of `re_compile` from `re.rs`: one required str parameter;
the compiled host regex is wrapped as an opaque payload of the `Pattern`
class (retrieved in the source through a module re-import, modelled by the
class it created). -/
def re_compile (rnew : String → Except String RRegex) (args : List PyObj) :
    Option (Except PyObj PyObj) :=
  match bindRequired [some strType] args with
  | .error e => some (.error e)
  | .ok _ =>
    match args with
    | pattern :: _ =>
      match make_regex rnew pattern with
      | .error e => some (.error e)
      | .ok regex => some (.ok (PyObject.new (RustValue.regex regex) patternType))
    | [] => none

/-- Translation of `get_regex` from `re.rs`: reads the opaque payload and
downcasts it to `Regex`; any other payload shape or stored type panics
(`none`). -/
def get_regex (obj : PyObj) : Option RRegex :=
  match obj with
  | .anyRustValue value _ => downcast_regex value
  | _ => none

/-- Translation of `get_match` from `re.rs`: reads the opaque payload and
downcasts it to `Match`; any other payload shape or stored type panics
(`none`). -/
def get_match (obj : PyObj) : Option RMatch :=
  match obj with
  | .anyRustValue value _ => downcast_match value
  | _ => none

/-- Translation of `pattern_match` from `re.rs`: unconstrained receiver plus
a required str parameter; the receiver's regex payload, then `do_match`. -/
def pattern_match (rfind : RRegex → String → Option RMatch) (args : List PyObj) :
    Option (Except PyObj PyObj) :=
  match bindRequired [none, some strType] args with
  | .error e => some (.error e)
  | .ok _ =>
    match args with
    | zelf :: text :: _ =>
      match get_regex zelf with
      | some regex => some (do_match rfind regex (objstr_get_value text))
      | none => none
    | _ => none

/-- Translation of `pattern_search` from `re.rs`: unconstrained receiver
plus a required str parameter; the receiver's regex payload, then
`do_search`. -/
def pattern_search (rfind : RRegex → String → Option RMatch) (args : List PyObj) :
    Option (Except PyObj PyObj) :=
  match bindRequired [none, some strType] args with
  | .error e => some (.error e)
  | .ok _ =>
    match args with
    | zelf :: text :: _ =>
      match get_regex zelf with
      | some regex => some (do_search rfind regex (objstr_get_value text))
      | none => none
    | _ => none

/-- Translation of `match_start` from `re.rs`: one unconstrained required
parameter; the receiver's match payload is read (panicking on a wrong
payload) and then the constant integer 0 is returned — the source marks the
real start as unimplemented. -/
def match_start (args : List PyObj) : Option (Except PyObj PyObj) :=
  match bindRequired [none] args with
  | .error e => some (.error e)
  | .ok _ =>
    match args with
    | zelf :: _ =>
      match get_match zelf with
      | some _ => some (.ok (PyObj.int 0))
      | none => none
    | [] => none

/-- Translation of `match_end` from `re.rs`: one unconstrained required
parameter; the receiver is not even inspected and the constant integer 0 is
returned — the source marks the real end as unimplemented. -/
def match_end (args : List PyObj) : Option (Except PyObj PyObj) :=
  match bindRequired [none] args with
  | .error e => some (.error e)
  | .ok _ =>
    match args with
    | _ :: _ => some (.ok (PyObj.int 0))
    | [] => none

/-- Literal substring search over character lists, returning the byte-free
character range of the first occurrence; a test fixture standing in for the
external crate's find on a literal pattern. -/
def findSub (needle : List Char) : List Char → Nat → Option RMatch
  | [], i => if needle = [] then some (RMatch.mk i i) else none
  | c :: rest, i =>
    if needle.isPrefixOf (c :: rest) then some (RMatch.mk i (i + needle.length))
    else findSub needle rest (i + 1)

/-- The fixture find function: search the pattern literally anywhere in the
text (the external crate's `find` is a search, not an anchored match). -/
def subFind (r : RRegex) (text : String) : Option RMatch :=
  findSub r.pattern.toList text.toList 0

/-- C6: popping an empty bytearray buffer returns an index error with
message "pop from empty bytearray" and leaves the buffer unchanged; popping
a buffer holding only 7 returns the integer 7 and leaves the buffer empty;
in general `pop` removes and returns the last byte of the buffer. -/
theorem bytearray_pop_spec :
    bytearray_pop [PyObj.bytearray []] =
      some (.error (new_index_error "pop from empty bytearray"), [PyObj.bytearray []]) ∧
    bytearray_pop [PyObj.bytearray [7]] =
      some (.ok (PyObj.int 7), [PyObj.bytearray []]) ∧
    ∀ (l : List Nat) (x : Nat),
      bytearray_pop [PyObj.bytearray (l ++ [x])] =
        some (.ok (PyObj.int x), [PyObj.bytearray l]) := by
  refine ⟨rfl, rfl, fun l x => ?_⟩
  simp [bytearray_pop, bindRequired, checkParams, isinstance, classOf, vec_pop,
    List.getLast?_concat, List.dropLast_concat,
    show isSubclass bytearrayType bytearrayType = true from by decide]

/-- C7: a host Regex stored type-erased through the opaque-payload wrap (as
`re_compile` does for the Pattern class) is recovered unchanged by the Regex
downcast, while a Match downcast of the same payload yields none; in
general an opaque downcast yields a value exactly when the stored type
identity matches the requested type. -/
theorem downcast_opaque_exact :
    (∀ (r : RRegex) (cls : PyClass),
      get_regex (PyObject.new (RustValue.regex r) cls) = some r) ∧
    (∀ (r : RRegex),
      get_regex (PyObject.new (RustValue.regex r) patternType) = some r ∧
      downcast_match (RustValue.regex r) = none) ∧
    (∀ (v : RustValue) (r : RRegex), downcast_regex v = some r ↔ v = RustValue.regex r) ∧
    (∀ (v : RustValue) (m : RMatch), downcast_match v = some m ↔ v = RustValue.rmatch m) := by
  refine ⟨fun r cls => rfl, fun r => ⟨rfl, rfl⟩, fun v r => ?_, fun v m => ?_⟩ <;>
    cases v <;> simp [downcast_regex, downcast_match]

/-- C9: the match operation returns exactly what the search operation
returns, at the `do_match` level, the Pattern-method level and the
module-function level, for every external find and compile behavior; and
match is not anchored: with a literal substring find, matching pattern "b"
against "ab" yields a match starting at position 1. -/
theorem match_delegates_to_search :
    (∀ (rfind : RRegex → String → Option RMatch) (regex : RRegex) (text : String),
      do_match rfind regex text = do_search rfind regex text) ∧
    (∀ (rfind : RRegex → String → Option RMatch) (args : List PyObj),
      pattern_match rfind args = pattern_search rfind args) ∧
    (∀ (rnew : String → Except String RRegex) (rfind : RRegex → String → Option RMatch)
      (args : List PyObj), re_match rnew rfind args = re_search rnew rfind args) ∧
    do_match subFind (RRegex.mk "b") "ab" =
      Except.ok (PyObj.anyRustValue (RustValue.rmatch (RMatch.mk 1 2)) matchType) :=
  ⟨fun _ _ _ => rfl, fun _ _ => rfl, fun _ _ _ => rfl, rfl⟩

/-- C10: on every Match object (any object whose opaque payload holds a host
Match value), the start and end native methods return the integer 0,
regardless of the stored match's actual position. -/
theorem match_start_end_zero :
    ∀ (m : RMatch) (cls : PyClass) (rest : List PyObj),
      match_start (PyObj.anyRustValue (RustValue.rmatch m) cls :: rest) =
        some (Except.ok (PyObj.int 0)) ∧
      match_end (PyObj.anyRustValue (RustValue.rmatch m) cls :: rest) =
        some (Except.ok (PyObj.int 0)) := by
  intro m cls rest
  constructor <;>
    simp [match_start, match_end, bindRequired, checkParams, get_match, downcast_match]

/-- Composition fact for the printer: when the traceback half yields lines
and the str conversion succeeds, the printer appends the text as the final
line. -/
theorem print_exception_ok_eq (exc : PyObj) (lines : List String) (txt : String)
    (h1 : traceback_lines exc = some lines) (h2 : to_str exc = some (Except.ok txt)) :
    print_exception exc = some (lines ++ [txt]) := by
  unfold print_exception
  rw [h1, h2]

/-- Composition fact for the printer: a panic in the traceback half aborts
the printer. -/
theorem print_exception_panic_eq (exc : PyObj) (h : traceback_lines exc = none) :
    print_exception exc = none := by
  unfold print_exception
  rw [h]

/-- Composition fact for the printer: when the traceback half yields lines
and the str conversion fails, the printer appends the secondary-failure
diagnostic as the final line. -/
theorem print_exception_err_eq (exc : PyObj) (lines : List String) (err : PyObj)
    (h1 : traceback_lines exc = some lines) (h2 : to_str exc = some (Except.error err)) :
    print_exception exc = some (lines ++ ["Error during error " ++ debugFmt err]) := by
  unfold print_exception
  rw [h1, h2]

/-- C1 (divergence witness): on a traceback stored oldest-first — the entry
for main at line 1 appended before the entry for helper at line 2 — the
printer reverses the list, so the helper line (the most recent call) is
printed FIRST, immediately after the header, and the main line second; yet
the header it prints announces "most recent call last". -/
theorem print_exception_reverses_entries :
    print_exception (PyObj.inst exceptionsZoo.valueError
      [("msg", PyObj.str "boom"),
       ("__traceback__", PyObj.list
         [PyObj.tuple [PyObj.str "f.py", PyObj.str "1", PyObj.str "main"],
          PyObj.tuple [PyObj.str "f.py", PyObj.str "2", PyObj.str "helper"]])]) =
    some ["Traceback (most recent call last):",
          "  File f.py, line 2, in helper",
          "  File f.py, line 1, in main",
          "ValueError: boom"] := by
  have hstr : to_str (PyObj.inst exceptionsZoo.valueError
      [("msg", PyObj.str "boom"),
       ("__traceback__", PyObj.list
         [PyObj.tuple [PyObj.str "f.py", PyObj.str "1", PyObj.str "main"],
          PyObj.tuple [PyObj.str "f.py", PyObj.str "2", PyObj.str "helper"]])]) =
      some (.ok "ValueError: boom") := by
    simp [to_str, lookupAttr,
      show isSubclass exceptionsZoo.valueError exceptionsZoo.exceptionType = true from by decide,
      show exceptionsZoo.valueError.name = "ValueError" from by decide]
  have hlines : traceback_lines (PyObj.inst exceptionsZoo.valueError
      [("msg", PyObj.str "boom"),
       ("__traceback__", PyObj.list
         [PyObj.tuple [PyObj.str "f.py", PyObj.str "1", PyObj.str "main"],
          PyObj.tuple [PyObj.str "f.py", PyObj.str "2", PyObj.str "helper"]])]) =
      some ["Traceback (most recent call last):",
            "  File f.py, line 2, in helper",
            "  File f.py, line 1, in main"] := by
    simp [traceback_lines, getAttribute, lookupAttr, isinstance, classOf, printElements,
      print_tb_element, fmt_component, to_str,
      show isSubclass listType listType = true from by decide,
      show isSubclass tupleType tupleType = true from by decide]
  exact print_exception_ok_eq _ _ _ hlines hstr

/-- C2 (counterexample): an instance of the BaseException class itself —
the base exception class — is rejected by `exception_str` with a type
error, because the declared parameter constraint is the `Exception` class,
not BaseException; the conversion does not succeed. -/
theorem exception_str_rejects_base_exception :
    exception_str [PyObj.inst exceptionsZoo.baseExceptionType [("msg", PyObj.str "boom")]] =
      some (.error (new_type_error ("Expected type " ++ exceptionsZoo.exceptionType.name))) ∧
    exception_str [PyObj.inst exceptionsZoo.baseExceptionType [("msg", PyObj.str "boom")]] ≠
      some (.ok (PyObj.str ("BaseException" ++ ": " ++ "boom"))) := by
  refine ⟨rfl, ?_⟩
  rw [show exception_str [PyObj.inst exceptionsZoo.baseExceptionType [("msg", PyObj.str "boom")]] =
    some (.error (new_type_error ("Expected type " ++ exceptionsZoo.exceptionType.name))) from rfl]
  simp

/-- C2 (amended): `exception_str` succeeds for every instance whose class is
the `Exception` class or a descendant of it and whose `msg` attribute is
present with a panic-free str conversion, and fails with a type error for
every argument whose class is not a subclass of `Exception` — including an
instance of BaseException itself; the acceptance check is the declared
class constraint on the single required parameter, whose constraint class
is `Exception`. -/
theorem exception_str_requires_exception_class :
    (∀ (cls : PyClass) (attrs : List (String × PyObj)) (rest : List PyObj)
      (m : PyObj) (rr : Except PyObj String),
      isSubclass cls exceptionsZoo.exceptionType = true →
      lookupAttr attrs "msg" = some m →
      to_str m = some rr →
      ∃ s, exception_str (PyObj.inst cls attrs :: rest) = some (.ok (PyObj.str s))) ∧
    (∀ (o : PyObj) (rest : List PyObj),
      isSubclass (classOf o) exceptionsZoo.exceptionType = false →
      exception_str (o :: rest) =
        some (.error (new_type_error ("Expected type " ++ exceptionsZoo.exceptionType.name)))) := by
  constructor
  · intro cls attrs rest m rr h1 h2 h3
    cases rr with
    | ok r =>
      exact ⟨cls.name ++ ": " ++ r, by
        simp [exception_str, bindRequired, checkParams, isinstance, classOf,
          getAttribute, h1, h2, h3]⟩
    | error e =>
      exact ⟨cls.name ++ ": " ++ "<exception str() failed>", by
        simp [exception_str, bindRequired, checkParams, isinstance, classOf,
          getAttribute, h1, h2, h3]⟩
  · intro o rest h
    simp [exception_str, bindRequired, checkParams, isinstance, h]

/-- Witness for the amended C2: a ValueError instance with msg "boom"
converts successfully; a plain string argument is rejected with the
Expected-type-Exception error. -/
theorem exception_str_requires_exception_class_witness :
    isSubclass exceptionsZoo.valueError exceptionsZoo.exceptionType = true ∧
    (∃ s, exception_str [PyObj.inst exceptionsZoo.valueError [("msg", PyObj.str "boom")]] =
      some (.ok (PyObj.str s))) ∧
    exception_str [PyObj.str "plain"] =
      some (.error (new_type_error ("Expected type " ++ exceptionsZoo.exceptionType.name))) :=
  ⟨by decide,
   exception_str_requires_exception_class.1 exceptionsZoo.valueError
     [("msg", PyObj.str "boom")] [] (PyObj.str "boom") (Except.ok "boom")
     (by decide) rfl (by simp [to_str]),
   exception_str_requires_exception_class.2 (PyObj.str "plain") [] (by decide)⟩

/-- C3 (counterexample): BaseException is a class registered in the
hierarchy, and the shared `__init__` does construct an instance with
msg "boom" and an empty traceback — but converting that instance with the
registered `__str__` yields a type error, not the string
"BaseException: boom", because the `__str__` constraint class is
`Exception`. -/
theorem exception_roundtrip_fails_for_base_exception :
    exception_init [PyObj.inst exceptionsZoo.baseExceptionType [], PyObj.str "boom"] =
      some (PyObj.inst exceptionsZoo.baseExceptionType
        [("msg", PyObj.str "boom"), ("__traceback__", PyObj.list [])], PyObj.pyNone) ∧
    exception_str [PyObj.inst exceptionsZoo.baseExceptionType
        [("msg", PyObj.str "boom"), ("__traceback__", PyObj.list [])]] =
      some (.error (new_type_error ("Expected type " ++ exceptionsZoo.exceptionType.name))) ∧
    exception_str [PyObj.inst exceptionsZoo.baseExceptionType
        [("msg", PyObj.str "boom"), ("__traceback__", PyObj.list [])]] ≠
      some (.ok (PyObj.str ("BaseException" ++ ": " ++ "boom"))) := by
  refine ⟨rfl, rfl, ?_⟩
  rw [show exception_str [PyObj.inst exceptionsZoo.baseExceptionType
        [("msg", PyObj.str "boom"), ("__traceback__", PyObj.list [])]] =
      some (.error (new_type_error ("Expected type " ++ exceptionsZoo.exceptionType.name))) from rfl]
  simp

/-- C3 (amended): for every exception class whose chain reaches the
`Exception` class (every registered class except BaseException itself),
constructing a fresh instance through the shared `__init__` with extra
argument "boom" and converting it with `__str__` yields exactly
"<ClassName>: boom", and constructing with no extra argument yields exactly
"<ClassName>: No msg"; and for every class whatsoever, `__init__` always
sets `__traceback__` to an empty list. -/
theorem exception_roundtrip_for_exception_subclasses :
    ∀ (cls : PyClass),
      (∀ (extra : List PyObj), ∃ z res,
        exception_init (PyObj.inst cls [] :: extra) = some (z, res) ∧
        getAttribute z "__traceback__" = some (PyObj.list [])) ∧
      (isSubclass cls exceptionsZoo.exceptionType = true →
        (∃ z, exception_init [PyObj.inst cls [], PyObj.str "boom"] = some (z, PyObj.pyNone) ∧
          exception_str [z] = some (.ok (PyObj.str (cls.name ++ ": " ++ "boom"))) ∧
          getAttribute z "__traceback__" = some (PyObj.list [])) ∧
        (∃ z, exception_init [PyObj.inst cls []] = some (z, PyObj.pyNone) ∧
          exception_str [z] = some (.ok (PyObj.str (cls.name ++ ": " ++ "No msg"))) ∧
          getAttribute z "__traceback__" = some (PyObj.list []))) := by
  intro cls
  constructor
  · intro extra
    cases extra with
    | nil => exact ⟨_, _, rfl, rfl⟩
    | cons m extra2 => exact ⟨_, _, rfl, rfl⟩
  · intro h
    constructor
    · refine ⟨PyObj.inst cls [("msg", PyObj.str "boom"), ("__traceback__", PyObj.list [])],
        rfl, ?_, rfl⟩
      simp [exception_str, bindRequired, checkParams, isinstance, classOf,
        getAttribute, lookupAttr, to_str, h]
    · refine ⟨PyObj.inst cls [("msg", PyObj.str "No msg"), ("__traceback__", PyObj.list [])],
        rfl, ?_, rfl⟩
      simp [exception_str, bindRequired, checkParams, isinstance, classOf,
        getAttribute, lookupAttr, to_str, h]

/-- Witness for the amended C3: the OverflowError class satisfies the
subclass hypothesis, and its fresh instance round-trips to
"OverflowError: boom". -/
theorem exception_roundtrip_for_exception_subclasses_witness :
    isSubclass exceptionsZoo.overflowError exceptionsZoo.exceptionType = true ∧
    (∃ z, exception_init [PyObj.inst exceptionsZoo.overflowError [], PyObj.str "boom"] =
        some (z, PyObj.pyNone) ∧
      exception_str [z] =
        some (.ok (PyObj.str (exceptionsZoo.overflowError.name ++ ": " ++ "boom"))) ∧
      getAttribute z "__traceback__" = some (PyObj.list [])) :=
  ⟨by decide,
   ((exception_roundtrip_for_exception_subclasses exceptionsZoo.overflowError).2
     (by decide)).1⟩

/-- C4 (counterexample): a traceback containing an empty tuple — an entry
without the expected triple shape — makes the printer panic (abort) via the
out-of-bounds component read, instead of printing the placeholder line and
continuing. -/
theorem print_exception_panics_on_short_tuple :
    print_exception (PyObj.inst exceptionsZoo.valueError
      [("msg", PyObj.str "m"),
       ("__traceback__", PyObj.list [PyObj.tuple []])]) = none := by
  apply print_exception_panic_eq
  simp [traceback_lines, getAttribute, lookupAttr, isinstance, classOf, printElements,
    print_tb_element,
    show isSubclass listType listType = true from by decide,
    show isSubclass tupleType tupleType = true from by decide]

/-- C4 (amended): a non-tuple traceback element prints as the placeholder
line and printing continues past it; a tuple element is read at positions
0, 1 and 2 with no length check, so a tuple with fewer than three
components panics (aborts) instead of printing the placeholder, while a
tuple with at least three components prints the File line built from its
first three components. -/
theorem print_tb_element_shapes :
    ∀ (e : PyObj),
      (isinstance e tupleType = false →
        print_tb_element e = some "  File ??" ∧
        ∀ (l : List PyObj) (ls : List String), printElements l = some ls →
          printElements (e :: l) = some ("  File ??" :: ls)) ∧
      (∀ (elems : List PyObj), e = PyObj.tuple elems → elems.length < 3 →
        print_tb_element e = none) ∧
      (∀ (e0 e1 e2 : PyObj) (rest : List PyObj) (f0 f1 f2 : String),
        e = PyObj.tuple (e0 :: e1 :: e2 :: rest) →
        fmt_component e0 = some f0 → fmt_component e1 = some f1 →
        fmt_component e2 = some f2 →
        print_tb_element e =
          some ("  File " ++ f0 ++ ", line " ++ f1 ++ ", in " ++ f2)) := by
  intro e
  refine ⟨fun h => ⟨?_, ?_⟩, fun elems he hlen => ?_,
    fun e0 e1 e2 rest f0 f1 f2 he h0 h1 h2 => ?_⟩
  · simp [print_tb_element, h]
  · intro l ls hls
    simp [printElements, print_tb_element, h, hls]
  · subst he
    cases elems with
    | nil => rfl
    | cons a t =>
      cases t with
      | nil => rfl
      | cons b t2 =>
        cases t2 with
        | nil => rfl
        | cons c t3 => exact absurd hlen (by simp)
  · subst he
    simp [print_tb_element, h0, h1, h2,
      show isinstance (PyObj.tuple (e0 :: e1 :: e2 :: rest)) tupleType = true from rfl]

/-- Witness for the amended C4: a string element prints the placeholder and
the loop continues; a one-component tuple panics; a full triple prints its
File line. -/
theorem print_tb_element_shapes_witness :
    isinstance (PyObj.str "junk") tupleType = false ∧
    print_tb_element (PyObj.str "junk") = some "  File ??" ∧
    printElements [PyObj.str "junk"] = some ["  File ??"] ∧
    print_tb_element (PyObj.tuple [PyObj.str "solo"]) = none ∧
    print_tb_element (PyObj.tuple [PyObj.str "f.py", PyObj.str "1", PyObj.str "main"]) =
      some ("  File " ++ "f.py" ++ ", line " ++ "1" ++ ", in " ++ "main") :=
  ⟨by decide,
   ((print_tb_element_shapes (PyObj.str "junk")).1 (by decide)).1,
   ((print_tb_element_shapes (PyObj.str "junk")).1 (by decide)).2 [] [] rfl,
   (print_tb_element_shapes (PyObj.tuple [PyObj.str "solo"])).2.1
     [PyObj.str "solo"] rfl (by decide),
   (print_tb_element_shapes
       (PyObj.tuple [PyObj.str "f.py", PyObj.str "1", PyObj.str "main"])).2.2
     (PyObj.str "f.py") (PyObj.str "1") (PyObj.str "main") [] "f.py" "1" "main" rfl
     (by simp [fmt_component, to_str]) (by simp [fmt_component, to_str])
     (by simp [fmt_component, to_str])⟩

/-- C5 (counterexample): the printer does not terminate normally for every
exception object: an exception whose traceback holds a one-component tuple
makes it panic through the unchecked component reads. -/
theorem print_exception_panics_on_singleton_tuple :
    print_exception (PyObj.inst exceptionsZoo.valueError
      [("msg", PyObj.str "m"),
       ("__traceback__", PyObj.list [PyObj.tuple [PyObj.str "solo"]])]) = none := by
  apply print_exception_panic_eq
  simp [traceback_lines, getAttribute, lookupAttr, isinstance, classOf, printElements,
    print_tb_element,
    show isSubclass listType listType = true from by decide,
    show isSubclass tupleType tupleType = true from by decide]

/-- A safely renderable element is printed as some line. -/
theorem tb_element_safe_total (e : PyObj) (h : tb_element_safe e = true) :
    ∃ s, print_tb_element e = some s := by
  have fmt_of : ∀ (c : PyObj), (to_str c).isSome = true → ∃ s, fmt_component c = some s := by
    intro c hc
    cases hto : to_str c with
    | none => rw [hto] at hc; simp at hc
    | some rr =>
      cases rr with
      | ok x => exact ⟨x, by simp [fmt_component, hto]⟩
      | error err => exact ⟨"<error>", by simp [fmt_component, hto]⟩
  by_cases hi : isinstance e tupleType = true
  · cases e with
    | tuple elems =>
      cases elems with
      | nil =>
        rw [tb_element_safe, if_pos hi] at h
        exacts [Bool.noConfusion h, by intro e0 e1 e2 tail he; simp at he]
      | cons a t =>
        cases t with
        | nil =>
          rw [tb_element_safe, if_pos hi] at h
          exacts [Bool.noConfusion h, by intro e0 e1 e2 tail he; simp at he]
        | cons b t2 =>
          cases t2 with
          | nil =>
            rw [tb_element_safe, if_pos hi] at h
            exacts [Bool.noConfusion h, by intro e0 e1 e2 tail he; simp at he]
          | cons c t3 =>
            rw [tb_element_safe, if_pos hi] at h
            have h' : ((to_str a).isSome && (to_str b).isSome && (to_str c).isSome) = true := h
            simp only [Bool.and_eq_true] at h'
            obtain ⟨⟨ha, hb⟩, hc⟩ := h'
            obtain ⟨f0, h0⟩ := fmt_of a ha
            obtain ⟨f1, h1⟩ := fmt_of b hb
            obtain ⟨f2, h2⟩ := fmt_of c hc
            exact ⟨"  File " ++ f0 ++ ", line " ++ f1 ++ ", in " ++ f2,
              by simp [print_tb_element, h0, h1, h2, hi]⟩
    | pyNone =>
      rw [tb_element_safe, if_pos hi] at h
      exacts [Bool.noConfusion h, by intro e0 e1 e2 tail he; simp at he]
    | int i =>
      rw [tb_element_safe, if_pos hi] at h
      exacts [Bool.noConfusion h, by intro e0 e1 e2 tail he; simp at he]
    | str s =>
      rw [tb_element_safe, if_pos hi] at h
      exacts [Bool.noConfusion h, by intro e0 e1 e2 tail he; simp at he]
    | list es =>
      rw [tb_element_safe, if_pos hi] at h
      exacts [Bool.noConfusion h, by intro e0 e1 e2 tail he; simp at he]
    | bytearray v =>
      rw [tb_element_safe, if_pos hi] at h
      exacts [Bool.noConfusion h, by intro e0 e1 e2 tail he; simp at he]
    | inst cls attrs =>
      rw [tb_element_safe, if_pos hi] at h
      exacts [Bool.noConfusion h, by intro e0 e1 e2 tail he; simp at he]
    | anyRustValue v cls =>
      rw [tb_element_safe, if_pos hi] at h
      exacts [Bool.noConfusion h, by intro e0 e1 e2 tail he; simp at he]
  · exact ⟨"  File ??", by simp [print_tb_element, hi]⟩

/-- A list of safely renderable elements is printed in full. -/
theorem printElements_total (es : List PyObj) (h : es.all tb_element_safe = true) :
    ∃ ls, printElements es = some ls := by
  induction es with
  | nil => exact ⟨[], rfl⟩
  | cons e rest ih =>
    rw [List.all_cons, Bool.and_eq_true] at h
    obtain ⟨s, hs⟩ := tb_element_safe_total e h.1
    obtain ⟨ls, hls⟩ := ih h.2
    exact ⟨s :: ls, by simp [printElements, hs, hls]⟩

/-- C5 (amended): the printer terminates normally — printing the diagnostic
placeholder when `__traceback__` is absent, and the secondary-failure
diagnostic when the exception's str conversion fails — provided the str
conversion itself does not panic and every tuple entry of the traceback has
at least three panic-free components; a short tuple entry (see the
counterexample) instead panics. -/
theorem print_exception_terminates_on_safe_tracebacks :
    ∀ (exc : PyObj) (r : Except PyObj String),
      to_str exc = some r → tb_safe exc = true →
      ∃ lines, print_exception exc = some (lines ++ [renderResult r]) ∧
        (getAttribute exc "__traceback__" = none →
          lines = ["No traceback set on exception"]) := by
  intro exc r h1 h2
  have hl : ∃ lines, traceback_lines exc = some lines ∧
      (getAttribute exc "__traceback__" = none →
        lines = ["No traceback set on exception"]) := by
    cases hA : getAttribute exc "__traceback__" with
    | none =>
      exact ⟨["No traceback set on exception"], by simp [traceback_lines, hA],
        fun _ => rfl⟩
    | some tb =>
      by_cases hlist : isinstance tb listType = true
      · cases tb with
        | list es =>
          have hsafe : es.all tb_element_safe = true := by
            have h2x := h2
            unfold tb_safe at h2x
            rw [hA] at h2x
            exact h2x
          have hrev : es.reverse.all tb_element_safe = true := by
            rw [List.all_reverse]
            exact hsafe
          obtain ⟨ls, hls⟩ := printElements_total es.reverse hrev
          refine ⟨"Traceback (most recent call last):" :: ls, ?_,
            fun hx => Option.noConfusion hx⟩
          simp [traceback_lines, hA, hlist, hls]
        | pyNone =>
          exact ⟨["Traceback (most recent call last):"],
            by simp [traceback_lines, hA, hlist], fun hx => Option.noConfusion hx⟩
        | int i =>
          exact ⟨["Traceback (most recent call last):"],
            by simp [traceback_lines, hA, hlist], fun hx => Option.noConfusion hx⟩
        | str s =>
          exact ⟨["Traceback (most recent call last):"],
            by simp [traceback_lines, hA, hlist], fun hx => Option.noConfusion hx⟩
        | tuple es =>
          exact ⟨["Traceback (most recent call last):"],
            by simp [traceback_lines, hA, hlist], fun hx => Option.noConfusion hx⟩
        | bytearray v =>
          exact ⟨["Traceback (most recent call last):"],
            by simp [traceback_lines, hA, hlist], fun hx => Option.noConfusion hx⟩
        | inst cls attrs =>
          exact ⟨["Traceback (most recent call last):"],
            by simp [traceback_lines, hA, hlist], fun hx => Option.noConfusion hx⟩
        | anyRustValue v cls =>
          exact ⟨["Traceback (most recent call last):"],
            by simp [traceback_lines, hA, hlist], fun hx => Option.noConfusion hx⟩
      · exact ⟨["Traceback (most recent call last):"],
          by simp [traceback_lines, hA, hlist], fun hx => Option.noConfusion hx⟩
  obtain ⟨lines, hl1, hl2⟩ := hl
  cases r with
  | ok txt => exact ⟨lines, print_exception_ok_eq exc lines txt hl1 h1, hl2⟩
  | error err => exact ⟨lines, print_exception_err_eq exc lines err hl1 h1, hl2⟩

/-- Witness for the amended C5: a bare BaseException instance has no
traceback attribute and a failing str conversion, and the printer prints
the placeholder line followed by the secondary-failure diagnostic. -/
theorem print_exception_terminates_on_safe_tracebacks_witness :
    to_str (PyObj.inst exceptionsZoo.baseExceptionType []) =
      some (.error (vmNewError exceptionsZoo.attributeError "__str__ not found")) ∧
    tb_safe (PyObj.inst exceptionsZoo.baseExceptionType []) = true ∧
    (∃ lines, print_exception (PyObj.inst exceptionsZoo.baseExceptionType []) =
        some (lines ++ [renderResult
          (.error (vmNewError exceptionsZoo.attributeError "__str__ not found"))]) ∧
      (getAttribute (PyObj.inst exceptionsZoo.baseExceptionType []) "__traceback__" = none →
        lines = ["No traceback set on exception"])) :=
  ⟨by simp [to_str,
      show isSubclass exceptionsZoo.baseExceptionType exceptionsZoo.exceptionType = false
        from by decide],
   rfl,
   print_exception_terminates_on_safe_tracebacks
     (PyObj.inst exceptionsZoo.baseExceptionType [])
     (.error (vmNewError exceptionsZoo.attributeError "__str__ not found"))
     (by simp [to_str,
       show isSubclass exceptionsZoo.baseExceptionType exceptionsZoo.exceptionType = false
         from by decide])
     rfl⟩
